import Mathlib

/-!
Shallow embedding of the dependency-injection container of
`github.com/make-bin/server-tpl` (`pkg/utils/container`): the
`SimpleContainer` (simple_container.go) and the `DIContainer`
(container.go), together with theorems settling the frozen claims
about bean registration, lookup, lifecycle handling, the reflective
`Populate` wiring pass, and the lock discipline of `Populate`.

Modelling conventions:
* A runtime value (`Obj`) carries a reference identity `ref` (pointer
  identity in Go) next to its reflective shape: whether it was
  registered as a pointer (`isPtr`), whether the possibly dereferenced
  value is a struct (`isStruct`), its `reflect.Type` (`ty`), and its
  fields.
* `reflect.Type` is modelled by `Ty`: a type identity `id`, its kind
  restricted to what the code inspects (`isInterface`), the result of
  `Type.String()` (`tyStr`), and the set of interface type ids the
  type implements (`impls`).
* A struct field carries the `inject` struct tag as an `Option String`
  (`none` when the tag is absent); `Tag.Get "inject"` returns `""`
  both for an absent tag and for an empty one, which `tagGet` models.
* A field value is `Option Nat`: the `ref` of the object the field
  holds, `none` for the zero value.
* Go map iteration order is unspecified; registries are association
  lists, fixing one arbitrary order.
* `sync.RWMutex` usage is modelled separately as the trace of lock
  acquisition and release events each operation performs (`LockEv`),
  with `selfDeadlocks` deciding whether a single goroutine running the
  trace blocks forever (Go's `RWMutex` is not reentrant: `RLock`
  blocks while a writer holds the lock, and `Lock` blocks while any
  lock is held).
-/

namespace ServerTpl

/-- Model of `reflect.Type`: identity, interface kind, `Type.String()`,
and the ids of the interface types this type implements. -/
structure Ty where
  id : Nat
  isInterface : Bool
  tyStr : String
  impls : List Nat
deriving DecidableEq, Repr

/-- Go assignability as used by the code
(`dependencyValue.Type().AssignableTo(field.Type())`): identical
types, or assignment to an interface type the source implements. -/
def assignableTo (t u : Ty) : Bool :=
  t == u || (u.isInterface && t.impls.contains u.id)

/-- `reflect.Type.Implements(u)`: reports whether the type implements
the interface type `u`, and panics when `u` is not an interface type.
The panic is modelled as the `Except` error. -/
def implementsEx (t u : Ty) : Except String Bool :=
  if u.isInterface then .ok (t.impls.contains u.id)
  else .error "reflect: non-interface type passed to Type.Implements"

/-- A struct field of a registered component: name, the `inject`
struct tag (`none` when absent), whether the field is exported,
its declared type, and the reference currently held (`none` = zero
value). -/
structure Field where
  fieldName : String
  tag : Option String
  exported : Bool
  ty : Ty
  value : Option Nat
deriving DecidableEq, Repr

/-- `fieldType.Tag.Get("inject")`: the empty string both when the tag
is absent and when it is present with an empty value. -/
def tagGet (f : Field) : String := f.tag.getD ""

/-- A registered component value: reference identity, whether it was
registered as a pointer, whether the (dereferenced) value is a struct,
its runtime type, and its fields. -/
structure Obj where
  ref : Nat
  isPtr : Bool
  isStruct : Bool
  ty : Ty
  fields : List Field
deriving DecidableEq, Repr

/-- `field.CanSet()`: a field obtained through `reflect.ValueOf` is
settable only when the value was registered as a pointer (making the
dereferenced struct addressable) and the field is exported. -/
def canSet (o : Obj) (f : Field) : Bool := o.isPtr && f.exported

/-- Lookup in a Go map keyed by name (registration enforces unique
keys, so the first hit is the only one). -/
def lookupName {α : Type} : List (String × α) → String → Option α
  | [], _ => none
  | p :: rest, n => if p.fst == n then some p.snd else lookupName rest n

/-- Lock acquisition and release events on the container RWMutex. -/
inductive LockEv where
  | lockW
  | unlockW
  | lockR
  | unlockR
deriving DecidableEq, Repr

/-- Runs a trace of lock events issued by a single goroutine on one
`sync.RWMutex`, tracking whether the write lock is held and how many
read locks are held, and returns `true` when some acquisition blocks
forever: `RLock` while the goroutine itself holds the write lock, or
`Lock` while it holds anything. -/
def selfDeadlockAux : List LockEv → Bool → Nat → Bool
  | [], _, _ => false
  | .lockW :: rest, w, r => if w || !(r == 0) then true else selfDeadlockAux rest true r
  | .unlockW :: rest, _, r => selfDeadlockAux rest false r
  | .lockR :: rest, w, r => if w then true else selfDeadlockAux rest w (r + 1)
  | .unlockR :: rest, w, r => selfDeadlockAux rest w (r - 1)

/-- A trace self-deadlocks when, starting from the unlocked state,
some acquisition in it blocks forever. -/
def selfDeadlocks (tr : List LockEv) : Bool := selfDeadlockAux tr false 0

end ServerTpl

namespace ServerTpl

/-- `SimpleContainer` (simple_container.go): a registry from name to
registered value. -/
structure SimpleContainer where
  beans : List (String × Obj)
deriving DecidableEq, Repr

namespace SimpleContainer

/-- `SimpleContainer.Get`: plain name lookup; found-ness is the
`Option`. -/
def get (c : SimpleContainer) (n : String) : Option Obj :=
  lookupName c.beans n

/-- One step of `SimpleContainer.GetByType`'s scan: exact type match
first, then — only when the target is an interface type — the
`Implements` check (the kind guard makes the panicking branch of
`Implements` unreachable). -/
def getByTypeList (t : Ty) : List (String × Obj) → Option Obj
  | [] => none
  | p :: rest =>
    if p.snd.ty == t then some p.snd
    else if t.isInterface && p.snd.ty.impls.contains t.id then some p.snd
    else getByTypeList t rest

/-- `SimpleContainer.GetByType`: linear scan, first match wins. -/
def getByType (c : SimpleContainer) (t : Ty) : Option Obj :=
  getByTypeList t c.beans

/-- `SimpleContainer.GetByType` with the panic behaviour of
`Type.Implements` made explicit: the scan evaluates
`beanType.Kind() == reflect.Interface && TypeOf(bean).Implements(beanType)`,
whose short-circuit guard keeps `Implements` from being invoked on a
non-interface target. -/
def getByTypeListEx (t : Ty) : List (String × Obj) → Except String (Option Obj)
  | [] => .ok none
  | p :: rest =>
    if p.snd.ty == t then .ok (some p.snd)
    else if t.isInterface then
      match implementsEx p.snd.ty t with
      | .error e => .error e
      | .ok true => .ok (some p.snd)
      | .ok false => getByTypeListEx t rest
    else getByTypeListEx t rest

/-- `SimpleContainer.GetByType`, panic-explicit version. -/
def getByTypeEx (c : SimpleContainer) (t : Ty) : Except String (Option Obj) :=
  getByTypeListEx t c.beans

/-- `SimpleContainer.ProvideWithName`: defaults an empty name to
`fmt.Sprintf("%T", bean)` (the value's type string), errors on a
duplicate name, otherwise stores the bean. -/
def provideWithName (c : SimpleContainer) (n : String) (b : Obj) :
    Except String SimpleContainer :=
  let nm := if n == "" then b.ty.tyStr else n
  match lookupName c.beans nm with
  | some _ => .error ("bean with name " ++ nm ++ " already exists")
  | none => .ok ⟨c.beans ++ [(nm, b)]⟩

/-- `SimpleContainer.Count`. -/
def count (c : SimpleContainer) : Nat := c.beans.length

/-- Dependency resolution for one field of
`SimpleContainer.injectDependencies` (lines 135-151): the branch on an
empty tag is kept exactly as in the source even though the loop has
already skipped empty tags; on a miss, a second lookup keyed on
`field.Type().String()` is attempted. -/
def resolveDep (c : SimpleContainer) (f : Field) : Option Obj :=
  let first := if tagGet f == "" then getByType c f.ty else get c (tagGet f)
  match first with
  | some d => some d
  | none => get c f.ty.tyStr

/-- One field of `SimpleContainer.injectDependencies`: skip an empty
tag, skip an unsettable field, resolve, and assign only when the
candidate is assignable to the field's declared type. -/
def injectField (c : SimpleContainer) (o : Obj) (f : Field) : Field :=
  if tagGet f == "" then f
  else if !(canSet o f) then f
  else
    match resolveDep c f with
    | some dep => if assignableTo dep.ty f.ty then { f with value := some dep.ref } else f
    | none => f

/-- `SimpleContainer.injectDependencies`: dereference a pointer, skip
non-structs silently, and process every field. Always returns
success. -/
def injectDependencies (c : SimpleContainer) (o : Obj) : Obj :=
  if o.isStruct then { o with fields := o.fields.map (injectField c o) } else o

/-- `SimpleContainer.Populate`: runs `injectDependencies` over every
registered bean. Resolution only reads names, types and reference
identities, none of which the pass changes, so resolving every bean
against the pre-pass registry is equivalent to the sequential
in-place mutation of the source. -/
def populate (c : SimpleContainer) : Except String SimpleContainer :=
  .ok ⟨c.beans.map (fun p => (p.fst, injectDependencies c p.snd))⟩

/-- Lock events of `SimpleContainer.Get` (RLock / RUnlock). -/
def getEvents : List LockEv := [.lockR, .unlockR]

/-- Lock events of `SimpleContainer.GetByType` (RLock / RUnlock). -/
def getByTypeEvents : List LockEv := [.lockR, .unlockR]

/-- Lock events issued while `SimpleContainer.injectDependencies`
processes one field: nothing for a skipped field; otherwise the
events of the first lookup (`c.GetByType` or `c.Get`), followed by
the events of the fallback `c.Get` when the first lookup missed. -/
def injectFieldEvents (c : SimpleContainer) (o : Obj) (f : Field) : List LockEv :=
  if tagGet f == "" then []
  else if !(canSet o f) then []
  else
    (if tagGet f == "" then getByTypeEvents else getEvents) ++
    (if (if tagGet f == "" then getByType c f.ty else get c (tagGet f)).isSome then []
     else getEvents)

/-- Lock events of `SimpleContainer.injectDependencies` on one bean. -/
def injectDepsEvents (c : SimpleContainer) (o : Obj) : List LockEv :=
  if o.isStruct then o.fields.flatMap (injectFieldEvents c o) else []

/-- Lock events of `SimpleContainer.Populate`: the outer write lock,
the events of the wiring pass, the outer unlock. -/
def populateEvents (c : SimpleContainer) : List LockEv :=
  [.lockW] ++ c.beans.flatMap (fun p => injectDepsEvents c p.snd) ++ [.unlockW]

end SimpleContainer

/-- `Lifecycle` of container.go. -/
inductive Lifecycle where
  | singleton
  | prototype
  | session
  | request
deriving DecidableEq, Repr

/-- `Bean` of container.go. A factory is a zero-argument constructor;
its allocation of a fresh object is modelled by handing it the next
fresh reference from an allocation counter (the `Tags` map is never
read by the code and is omitted). -/
structure Bean where
  beanName : String
  value : Obj
  ty : Ty
  lifecycle : Lifecycle
  factory : Option (Nat → Obj)

/-- `DIContainer` of container.go: the name-keyed bean registry plus
the secondary type-keyed index written by `Provide`. -/
structure DIContainer where
  beans : List (String × Bean)
  services : List (Ty × Obj)

namespace DIContainer

/-- Go map assignment `c.services[beanType] = bean`: overwrite when
present, insert otherwise. -/
def upsertService (l : List (Ty × Obj)) (t : Ty) (v : Obj) : List (Ty × Obj) :=
  if l.any (fun p => p.fst == t) then l.map (fun p => if p.fst == t then (t, v) else p)
  else l ++ [(t, v)]

/-- `DIContainer.Provide`: duplicate-name check, then store with the
default `Singleton` lifecycle and no factory, also indexing the value
by its runtime type. -/
def provide (c : DIContainer) (n : String) (b : Obj) : Except String DIContainer :=
  match lookupName c.beans n with
  | some _ => .error ("bean with name " ++ n ++ " already exists")
  | none =>
    .ok ⟨c.beans ++ [(n, ⟨n, b, b.ty, .singleton, none⟩)], upsertService c.services b.ty b⟩

/-- `DIContainer.RegisterWithLifecycle`: like `Provide` with an
explicit lifecycle but without the type index. -/
def registerWithLifecycle (c : DIContainer) (n : String) (b : Obj) (lc : Lifecycle) :
    Except String DIContainer :=
  match lookupName c.beans n with
  | some _ => .error ("bean with name " ++ n ++ " already exists")
  | none => .ok ⟨c.beans ++ [(n, ⟨n, b, b.ty, lc, none⟩)], c.services⟩

/-- `DIContainer.RegisterFactory`: invokes the factory once to obtain
the initial instance and its type, storing both the instance and the
factory. The allocation counter `a` supplies the fresh reference that
the factory's construction of a new object receives. -/
def registerFactory (c : DIContainer) (n : String) (f : Nat → Obj) (lc : Lifecycle)
    (a : Nat) : Except String DIContainer × Nat :=
  match lookupName c.beans n with
  | some _ => (.error ("bean with name " ++ n ++ " already exists"), a)
  | none =>
    let inst := f a
    (.ok ⟨c.beans ++ [(n, ⟨n, inst, inst.ty, lc, some f⟩)], c.services⟩, a + 1)

/-- `DIContainer.Get` (lifecycle-aware, container.go lines 77-97):
`Singleton` returns the stored instance; `Prototype` invokes the
factory when one exists and otherwise falls back to the stored
instance; `Session`/`Request` fall through to the stored instance.
The allocation counter is threaded so that a factory invocation
consumes a fresh reference. -/
def getA (c : DIContainer) (n : String) (a : Nat) : Option Obj × Nat :=
  match lookupName c.beans n with
  | none => (none, a)
  | some b =>
    match b.lifecycle with
    | .singleton => (some b.value, a)
    | .prototype =>
      match b.factory with
      | some f => (some (f a), a + 1)
      | none => (some b.value, a)
    | _ => (some b.value, a)

/-- One field of `DIContainer.injectDependencies` (lines 138-159):
skip an empty tag, skip an unsettable field, then resolve by the tag
name only — through the lifecycle-aware `Get` and with no fallback —
and assign when assignable. -/
def injectFieldD (c : DIContainer) (o : Obj) (f : Field) (a : Nat) : Field × Nat :=
  if tagGet f == "" then (f, a)
  else if !(canSet o f) then (f, a)
  else
    match getA c (tagGet f) a with
    | (some dep, a2) =>
      if assignableTo dep.ty f.ty then ({ f with value := some dep.ref }, a2) else (f, a2)
    | (none, a2) => (f, a2)

/-- The field loop of `DIContainer.injectDependencies`, threading the
allocation counter left to right. -/
def injectFieldsD (c : DIContainer) (o : Obj) : List Field → Nat → List Field × Nat
  | [], a => ([], a)
  | f :: rest, a =>
    let q := injectFieldD c o f a
    let r := injectFieldsD c o rest q.snd
    (q.fst :: r.fst, r.snd)

/-- `DIContainer.injectDependencies`: dereference a pointer, skip
non-structs silently, process every field; always succeeds. -/
def injectDepsD (c : DIContainer) (o : Obj) (a : Nat) : Obj × Nat :=
  if o.isStruct then
    let r := injectFieldsD c o o.fields a
    ({ o with fields := r.fst }, r.snd)
  else (o, a)

/-- The bean loop of `DIContainer.Populate`. Resolution reads only
names, lifecycles, factories and reference identities, none of which
the pass changes, so resolving against the pre-pass registry matches
the sequential in-place mutation of the source. -/
def populateBeansD (c : DIContainer) : List (String × Bean) → Nat →
    List (String × Bean) × Nat
  | [], a => ([], a)
  | p :: rest, a =>
    let q := injectDepsD c p.snd.value a
    let r := populateBeansD c rest q.snd
    ((p.fst, { p.snd with value := q.fst }) :: r.fst, r.snd)

/-- `DIContainer.Populate`: wires every bean; `injectDependencies`
never fails, so the pass always returns success. -/
def populateD (c : DIContainer) (a : Nat) : Except String DIContainer × Nat :=
  let r := populateBeansD c c.beans a
  (.ok ⟨r.fst, c.services⟩, r.snd)

/-- `bean.Type == beanType || bean.Type.Implements(beanType)` of
`DIContainer.GetBeansByType` (line 217): the `Implements` call is not
guarded by an interface-kind check, so its panic is reachable. -/
def dicMatch (bt t : Ty) : Except String Bool :=
  if bt == t then .ok true else implementsEx bt t

/-- The scan of `DIContainer.GetBeansByType`: collects the values of
all matching beans, propagating a panic from `dicMatch`. -/
def getBeansByTypeList (t : Ty) : List (String × Bean) → Except String (List Obj)
  | [] => .ok []
  | p :: rest =>
    match dicMatch p.snd.ty t with
    | .error e => .error e
    | .ok true =>
      match getBeansByTypeList t rest with
      | .error e => .error e
      | .ok l => .ok (p.snd.value :: l)
    | .ok false => getBeansByTypeList t rest

/-- `DIContainer.GetBeansByType`. -/
def getBeansByType (c : DIContainer) (t : Ty) : Except String (List Obj) :=
  getBeansByTypeList t c.beans

/-- `DIContainer.Count`. -/
def countD (c : DIContainer) : Nat := c.beans.length

/-- Lock events issued while `DIContainer.injectDependencies`
processes one field: the single `c.Get(injectTag)` call takes and
releases the read lock. -/
def injectFieldEventsD (f : Field) (o : Obj) : List LockEv :=
  if tagGet f == "" then []
  else if !(canSet o f) then []
  else [.lockR, .unlockR]

/-- Lock events of `DIContainer.injectDependencies` on one bean. -/
def injectDepsEventsD (o : Obj) : List LockEv :=
  if o.isStruct then o.fields.flatMap (fun f => injectFieldEventsD f o) else []

/-- Lock events of `DIContainer.Populate`: the outer write lock, the
wiring pass events, the outer unlock. -/
def populateEventsD (c : DIContainer) : List LockEv :=
  [.lockW] ++ c.beans.flatMap (fun p => injectDepsEventsD p.snd.value) ++ [.unlockW]

end DIContainer

/-! Concrete fixtures, modelled on the repository's own bootstrap
(server.go registers the datastore under the name "datastore" and the
DI service bean `&applicationService` whose exported field `Store`
carries `inject:"datastore"`). -/

/-- The datastore capability interface type. -/
def dsIfaceTy : Ty := ⟨2, true, "datastore.DatastoreInterface", []⟩

/-- A concrete store type implementing the datastore interface. -/
def dsTy : Ty := ⟨1, false, "postgresql.Store", [2]⟩

/-- The service struct type. -/
def svcTy : Ty := ⟨3, false, "service.applicationService", []⟩

/-- An unregistered capability type, used for unresolvable lookups. -/
def cacheTy : Ty := ⟨4, true, "cache.Cache", []⟩

/-- The registered datastore instance (a pointer value). -/
def dsObj : Obj := ⟨10, true, true, dsTy, []⟩

/-- The service's `Store` field: exported, `inject:"datastore"`. -/
def storeField : Field := ⟨"Store", some "datastore", true, dsIfaceTy, none⟩

/-- The service bean, registered as a pointer to its struct. -/
def svcObj : Obj := ⟨11, true, true, svcTy, [storeField]⟩

/-- A field carrying an empty injection marker (`inject:""`). -/
def emptyTagField : Field := ⟨"ApplicationService", some "", true, dsIfaceTy, none⟩

/-- A pointer bean whose only marked field has an empty marker. -/
def svcObjE : Obj := ⟨12, true, true, svcTy, [emptyTagField]⟩

/-- A field whose marker names an unregistered bean but whose type
name is a registered name. -/
def storeFieldM : Field := ⟨"Store", some "missing", true, dsIfaceTy, none⟩

/-- A pointer bean holding `storeFieldM`. -/
def svcObjM : Obj := ⟨13, true, true, svcTy, [storeFieldM]⟩

/-- The service registered as a plain struct value (not a pointer). -/
def svcVal : Obj := ⟨14, false, true, svcTy, [storeField]⟩

/-- A field marked with a dependency name that no lookup resolves. -/
def missField : Field := ⟨"C", some "cache", true, cacheTy, none⟩

/-- A pointer bean holding `missField`. -/
def svcObjW : Obj := ⟨15, true, true, svcTy, [missField]⟩

/-- The bootstrap registry for the simple container. -/
def scBoot : SimpleContainer := ⟨[("datastore", dsObj), ("svc", svcObj)]⟩

/-- The datastore bean of the `DIContainer` bootstrap registry. -/
def dsBeanB : Bean := ⟨"datastore", dsObj, dsTy, .singleton, none⟩

/-- The service bean of the `DIContainer` bootstrap registry. -/
def svcBeanB : Bean := ⟨"svc", svcObj, svcTy, .singleton, none⟩

/-- The bootstrap registry for the `DIContainer`. -/
def dicBoot : DIContainer := ⟨[("datastore", dsBeanB), ("svc", svcBeanB)], []⟩

/-- SimpleContainer registry with an empty-marker field and a bean of
exactly the marked field's type available for type-based lookup. -/
def c1sc : SimpleContainer := ⟨[("datastore", dsObj), ("svc", svcObjE)]⟩

/-- DIContainer registry where the marked field's name lookup misses
but a bean is registered under the field's type name. -/
def c1dc : DIContainer :=
  ⟨[("datastore.DatastoreInterface", ⟨"datastore.DatastoreInterface", dsObj, dsTy, .singleton, none⟩),
    ("svc", ⟨"svc", svcObjM, svcTy, .singleton, none⟩)], []⟩

/-- SimpleContainer registry containing a value (non-pointer) bean
with a marked field whose dependency is registered and assignable. -/
def c2sc : SimpleContainer := ⟨[("datastore", dsObj), ("svc", svcVal)]⟩

/-- An empty SimpleContainer. -/
def emptySC : SimpleContainer := ⟨[]⟩

/-- An empty DIContainer. -/
def emptyDC : DIContainer := ⟨[], []⟩

/-- An allocating factory: constructs a new object at the fresh
reference it is handed. -/
def protoFac : Nat → Obj := fun r => ⟨r, true, true, dsTy, []⟩

/-- The container obtained by registering `protoFac` as a `Prototype`
factory bean named "proto" starting from the empty container. -/
def protoC : DIContainer :=
  ⟨[("proto", ⟨"proto", protoFac 0, (protoFac 0).ty, .prototype, some protoFac⟩)], []⟩

/-- A second store type implementing the datastore interface. -/
def memTy : Ty := ⟨5, false, "memory.Store", [2]⟩

/-- A memory-store instance. -/
def memObj : Obj := ⟨16, true, true, memTy, []⟩

/-- The Postgres-like store bean of the two-implementations registry. -/
def s1Bean : Bean := ⟨"s1", dsObj, dsTy, .singleton, none⟩

/-- The memory-store bean of the two-implementations registry. -/
def s2Bean : Bean := ⟨"s2", memObj, memTy, .singleton, none⟩

/-- A registry with two beans implementing the same interface. -/
def c7dc : DIContainer := ⟨[("s1", s1Bean), ("s2", s2Bean)], []⟩

/-- A registry interleaving a non-implementing bean between two beans
that implement the datastore interface. -/
def c7mix : DIContainer := ⟨[("s1", s1Bean), ("svc", svcBeanB), ("s2", s2Bean)], []⟩

/-! Shared helper lemmas. -/

/-- Appending a fresh key to a registry makes it found. -/
theorem lookupName_append_of_not_found {α : Type} (l : List (String × α)) (n : String)
    (v : α) (h : lookupName l n = none) : lookupName (l ++ [(n, v)]) n = some v := by
  induction l with
  | nil => simp [lookupName]
  | cons p rest ih =>
    unfold lookupName at h ⊢
    by_cases hp : (p.fst == n) = true
    · simp [hp] at h
    · simp [hp] at h ⊢
      exact ih h

/-- A map whose function fixes every element of a list is the
identity on that list. -/
theorem map_self_of_fix {α : Type} (g : α → α) :
    ∀ l : List α, (∀ x ∈ l, g x = x) → l.map g = l
  | [], _ => rfl
  | x :: rest, h => by
    have hx : g x = x := h x (by simp)
    have hr : rest.map g = rest := map_self_of_fix g rest (fun y hy => h y (by simp [hy]))
    simp [hx, hr]

/-! Claim theorems. -/

/-- C8: the claim states that `Populate` holds only the single outer
write lock for its whole duration, with no inner lock acquisition
during per-field resolution, and therefore completes for every
registry including ones with marked fields. The code contradicts
this: during the wiring pass both containers call their own public
lookup methods, which acquire the read lock of the very RWMutex whose
write lock `Populate` already holds, and Go's `sync.RWMutex` is not
reentrant. On the registry mirroring the repository's own bootstrap
(a "datastore" bean plus a pointer bean with an exported field tagged
`inject:"datastore"`), the populate trace of each container performs
an inner read-lock acquisition while the write lock is held, and the
trace self-deadlocks. -/
theorem c8_populate_nested_locking_deadlock :
    SimpleContainer.populateEvents scBoot =
      [LockEv.lockW, LockEv.lockR, LockEv.unlockR, LockEv.unlockW] ∧
    selfDeadlocks (SimpleContainer.populateEvents scBoot) = true ∧
    DIContainer.populateEventsD dicBoot =
      [LockEv.lockW, LockEv.lockR, LockEv.unlockR, LockEv.unlockW] ∧
    selfDeadlocks (DIContainer.populateEventsD dicBoot) = true := by
  decide

/-- C1 counterexample: the claim asserts that a marked field with an
empty marker value still gets resolution attempted by type-based
lookup and then by type-name lookup. In `c1sc` the empty-marker field
would be resolved by the type-based lookup (the datastore bean is
registered, of exactly the field's declared interface type, and
assignable), yet `Populate` leaves the whole registry unchanged — the
field keeps its zero value, because an empty marker is
indistinguishable from an absent tag and the field loop skips it. In
`c1dc` the marker is non-empty but its name lookup misses while a
bean is registered under the field's exact type name and is
assignable; the claim's step (iii) would inject it, yet the
`DIContainer` pass leaves everything unchanged because it has no
fallback lookup at all. -/
theorem c1_counterexample :
    (SimpleContainer.getByType c1sc dsIfaceTy = some dsObj ∧
     assignableTo dsObj.ty emptyTagField.ty = true ∧
     emptyTagField.value = none ∧
     SimpleContainer.populate c1sc = .ok c1sc) ∧
    (lookupName c1dc.beans storeFieldM.ty.tyStr = some
       ⟨"datastore.DatastoreInterface", dsObj, dsTy, .singleton, none⟩ ∧
     assignableTo dsObj.ty storeFieldM.ty = true ∧
     DIContainer.populateD c1dc 0 = (.ok c1dc, 0)) := by
  exact ⟨⟨by decide, by decide, by decide, rfl⟩, ⟨rfl, by decide, rfl⟩⟩

/-- C1 (amended): during `Populate`, a field whose marker value is
empty is skipped with no resolution attempted (an empty marker is
indistinguishable from an absent tag, so the type-based branch of the
resolution code is unreachable); for a field with a non-empty marker,
`SimpleContainer` resolves first by the marker's name and, on a miss,
by a registry lookup keyed on the field's type name as a plain
string; `DIContainer` resolves only by the marker's name, with no
fallback. -/
theorem c1_amended_resolution :
    (∀ (c : SimpleContainer) (o : Obj) (f : Field),
       tagGet f = "" → SimpleContainer.injectField c o f = f) ∧
    (∀ (c : SimpleContainer) (f : Field) (d : Obj),
       tagGet f ≠ "" → SimpleContainer.get c (tagGet f) = some d →
       SimpleContainer.resolveDep c f = some d) ∧
    (∀ (c : SimpleContainer) (f : Field),
       tagGet f ≠ "" → SimpleContainer.get c (tagGet f) = none →
       SimpleContainer.resolveDep c f = SimpleContainer.get c f.ty.tyStr) ∧
    (∀ (c : DIContainer) (o : Obj) (f : Field) (a : Nat),
       lookupName c.beans (tagGet f) = none →
       DIContainer.injectFieldD c o f a = (f, a)) := by
  refine ⟨?_, ?_, ?_, ?_⟩
  · intro c o f h
    simp [SimpleContainer.injectField, h]
  · intro c f d h hget
    have hb : (tagGet f == "") = false := by simpa using h
    simp [SimpleContainer.resolveDep, hb, hget]
  · intro c f h hget
    have hb : (tagGet f == "") = false := by simpa using h
    simp [SimpleContainer.resolveDep, hb, hget]
  · intro c o f a h
    by_cases ht : (tagGet f == "") = true
    · simp [DIContainer.injectFieldD, ht]
    · by_cases hs : (!(canSet o f)) = true
      · simp [DIContainer.injectFieldD, ht, hs]
      · simp [DIContainer.injectFieldD, ht, hs, DIContainer.getA, h]

/-- C1 amended witness: the empty-marker field of the bootstrap-like
registry is skipped unchanged; the bootstrap `Store` field resolves
by name to the datastore bean; the `DIContainer` field whose name
lookup misses is left untouched. -/
theorem c1_amended_resolution_witness :
    SimpleContainer.injectField scBoot svcObjE emptyTagField = emptyTagField ∧
    SimpleContainer.resolveDep scBoot storeField = some dsObj ∧
    DIContainer.injectFieldD c1dc svcObjM storeFieldM 0 = (storeFieldM, 0) :=
  ⟨c1_amended_resolution.1 scBoot svcObjE emptyTagField rfl,
   c1_amended_resolution.2.1 scBoot storeField dsObj (by decide) (by decide),
   c1_amended_resolution.2.2.2 c1dc svcObjM storeFieldM 0 rfl⟩

/-- C2 counterexample: in `c2sc` the service bean is registered as a
plain struct value; its field `Store` is marked with the explicit
name "datastore", which is the name of a registered bean of an
assignable type, yet `Populate` leaves the registry unchanged and the
field still holds its zero value rather than the datastore bean's
value — a reflective view of a non-pointer value is not settable, so
the claim fails as stated. -/
theorem c2_counterexample :
    SimpleContainer.get c2sc "datastore" = some dsObj ∧
    assignableTo dsObj.ty storeField.ty = true ∧
    storeField.value = none ∧
    svcVal.fields = [storeField] ∧
    SimpleContainer.populate c2sc = .ok c2sc := by
  exact ⟨by decide, by decide, by decide, by decide, rfl⟩

/-- C2 (amended): after `Populate()` returns, for every registered
bean `b` having a field `F` marked for injection with explicit
dependency name `d`, where `F` is settable in the reflective view
(`b` was registered as a pointer to a struct and `F` is exported), if
`d` is the name of a registered bean `B` whose type is assignable to
`F`'s declared type, then `F` of `b` holds `B`'s value; for
`DIContainer` the resolved candidate is what the lifecycle-aware
`Get` returns, which is `B`'s stored value whenever `B` is a
`Singleton` or has no factory. -/
theorem c2_amended_injection :
    (∀ (c : SimpleContainer) (n : String) (o : Obj) (f : Field) (B : Obj),
       (n, o) ∈ c.beans → o.isStruct = true → f ∈ o.fields →
       tagGet f ≠ "" → canSet o f = true →
       SimpleContainer.get c (tagGet f) = some B →
       assignableTo B.ty f.ty = true →
       ∃ c2, SimpleContainer.populate c = .ok c2 ∧
         (n, SimpleContainer.injectDependencies c o) ∈ c2.beans ∧
         SimpleContainer.injectField c o f = { f with value := some B.ref } ∧
         { f with value := some B.ref } ∈ (SimpleContainer.injectDependencies c o).fields) ∧
    (∀ (c : DIContainer) (o : Obj) (f : Field) (a : Nat) (B : Bean),
       tagGet f ≠ "" → canSet o f = true →
       lookupName c.beans (tagGet f) = some B →
       (B.lifecycle = .singleton ∨ B.factory = none) →
       assignableTo B.value.ty f.ty = true →
       DIContainer.injectFieldD c o f a = ({ f with value := some B.value.ref }, a)) := by
  constructor
  · intro c n o f B hmem hstruct hf htag hset hget hassign
    have htagb : (tagGet f == "") = false := by simpa using htag
    have hfield : SimpleContainer.injectField c o f = { f with value := some B.ref } := by
      simp [SimpleContainer.injectField, SimpleContainer.resolveDep, htagb, hset, hget, hassign]
    refine ⟨_, rfl, ?_, hfield, ?_⟩
    · exact List.mem_map_of_mem (fun p => (p.fst, SimpleContainer.injectDependencies c p.snd)) hmem
    · rw [SimpleContainer.injectDependencies, if_pos hstruct]
      rw [← hfield]
      exact List.mem_map_of_mem (SimpleContainer.injectField c o) hf
  · intro c o f a B htag hset hget hlife hassign
    have htagb : (tagGet f == "") = false := by simpa using htag
    have hval : DIContainer.getA c (tagGet f) a = (some B.value, a) := by
      rcases hlife with hl | hfac
      · simp [DIContainer.getA, hget, hl]
      · rcases B with ⟨bn, bv, bty, blc, bfac⟩
        simp only [Bean.factory] at hfac
        subst hfac
        cases blc <;> simp [DIContainer.getA, hget]
    simp [DIContainer.injectFieldD, htagb, hset, hval, hassign]

/-- C2 amended witness: on the bootstrap registry, `Populate` stores
the datastore bean's reference into the service's `Store` field. -/
theorem c2_amended_injection_witness :
    ∃ c2, SimpleContainer.populate scBoot = .ok c2 ∧
      (("svc", SimpleContainer.injectDependencies scBoot svcObj) ∈ c2.beans) ∧
      SimpleContainer.injectField scBoot svcObj storeField =
        { storeField with value := some dsObj.ref } ∧
      { storeField with value := some dsObj.ref } ∈
        (SimpleContainer.injectDependencies scBoot svcObj).fields :=
  c2_amended_injection.1 scBoot "svc" svcObj storeField dsObj
    (by simp [scBoot]) (by decide) (by simp [svcObj]) (by decide) (by decide)
    (by decide) (by decide)

/-- C3: a marked field whose dependency name resolves to no
registered bean, and for which the type-name fallback also misses, is
left untouched by the wiring pass, and `Populate` never returns an
error in either container — resolution failures are not surfaced. -/
theorem c3_unresolved_dependency_silent :
    (∀ (c : SimpleContainer) (o : Obj) (f : Field),
       tagGet f ≠ "" →
       SimpleContainer.get c (tagGet f) = none →
       SimpleContainer.get c f.ty.tyStr = none →
       SimpleContainer.injectField c o f = f) ∧
    (∀ c : SimpleContainer, ∃ c2, SimpleContainer.populate c = .ok c2) ∧
    (∀ (c : DIContainer) (o : Obj) (f : Field) (a : Nat),
       tagGet f ≠ "" →
       lookupName c.beans (tagGet f) = none →
       DIContainer.injectFieldD c o f a = (f, a)) ∧
    (∀ (c : DIContainer) (a : Nat), ∃ c2 a2, DIContainer.populateD c a = (.ok c2, a2)) := by
  refine ⟨?_, fun c => ⟨_, rfl⟩, ?_, fun c a => ⟨_, _, rfl⟩⟩
  · intro c o f htag hname htyname
    have htagb : (tagGet f == "") = false := by simpa using htag
    simp [SimpleContainer.injectField, SimpleContainer.resolveDep, htagb, hname, htyname]
  · intro c o f a htag hname
    have htagb : (tagGet f == "") = false := by simpa using htag
    simp [DIContainer.injectFieldD, htagb, DIContainer.getA, hname]

/-- C3 witness: the field marked `inject:"cache"` of type
`cache.Cache` resolves nowhere in the bootstrap registry and is left
untouched; both populate passes return success on it. -/
theorem c3_unresolved_dependency_silent_witness :
    SimpleContainer.injectField scBoot svcObjW missField = missField ∧
    (∃ c2, SimpleContainer.populate scBoot = .ok c2) ∧
    DIContainer.injectFieldD dicBoot svcObjW missField 0 = (missField, 0) ∧
    (∃ c2 a2, DIContainer.populateD dicBoot 0 = (.ok c2, a2)) :=
  ⟨c3_unresolved_dependency_silent.1 scBoot svcObjW missField (by decide) (by decide)
     (by decide),
   c3_unresolved_dependency_silent.2.1 scBoot,
   c3_unresolved_dependency_silent.2.2.1 dicBoot svcObjW missField 0 (by decide) rfl,
   c3_unresolved_dependency_silent.2.2.2 dicBoot 0⟩

/-- C4: registering a second bean under an already-taken name fails
with an error and leaves the registry untouched — after a successful
`provide(n, v1)`, a second `provide(n, v2)` errors, `get(n)` still
yields `v1`, and the count is still one more than before the first
call (the duplicate check precedes every mutation, so the failed call
changes nothing). Holds for `DIContainer.Provide` and for
`SimpleContainer.ProvideWithName` with a non-empty name. -/
theorem c4_duplicate_provide_rejected :
    (∀ (c : DIContainer) (n : String) (v1 v2 : Obj) (c2 : DIContainer),
       DIContainer.provide c n v1 = .ok c2 →
       (∃ e, DIContainer.provide c2 n v2 = .error e) ∧
       (∀ a, DIContainer.getA c2 n a = (some v1, a)) ∧
       DIContainer.countD c2 = DIContainer.countD c + 1) ∧
    (∀ (c : SimpleContainer) (n : String) (v1 v2 : Obj) (c2 : SimpleContainer),
       n ≠ "" →
       SimpleContainer.provideWithName c n v1 = .ok c2 →
       (∃ e, SimpleContainer.provideWithName c2 n v2 = .error e) ∧
       SimpleContainer.get c2 n = some v1 ∧
       SimpleContainer.count c2 = SimpleContainer.count c + 1) := by
  constructor
  · intro c n v1 v2 c2 h
    rw [DIContainer.provide] at h
    cases hl : lookupName c.beans n with
    | some b => rw [hl] at h; cases h
    | none =>
      rw [hl] at h
      cases h
      have hfound := lookupName_append_of_not_found c.beans n
        (⟨n, v1, v1.ty, .singleton, none⟩ : Bean) hl
      refine ⟨⟨"bean with name " ++ n ++ " already exists", ?_⟩, ?_, ?_⟩
      · rw [DIContainer.provide]
        simp only [hfound]
      · intro a
        simp [DIContainer.getA, hfound]
      · simp [DIContainer.countD]
  · intro c n v1 v2 c2 hn h
    have hnb : (n == "") = false := by simpa using hn
    rw [SimpleContainer.provideWithName] at h
    simp only [hnb, Bool.false_eq_true, if_false] at h
    cases hl : lookupName c.beans n with
    | some b => rw [hl] at h; cases h
    | none =>
      rw [hl] at h
      cases h
      have hfound := lookupName_append_of_not_found c.beans n v1 hl
      refine ⟨⟨"bean with name " ++ n ++ " already exists", ?_⟩, ?_, ?_⟩
      · rw [SimpleContainer.provideWithName]
        simp only [hnb, Bool.false_eq_true, if_false, hfound]
      · simp [SimpleContainer.get, hfound]
      · simp [SimpleContainer.count]

/-- C4 witness: on the empty containers, providing "a" twice errors
on the second call with the first registration intact. -/
theorem c4_duplicate_provide_rejected_witness :
    ((∃ e, DIContainer.provide
        ⟨[("a", ⟨"a", dsObj, dsObj.ty, .singleton, none⟩)], [(dsObj.ty, dsObj)]⟩
        "a" svcObj = .error e) ∧
     (∀ a, DIContainer.getA
        ⟨[("a", ⟨"a", dsObj, dsObj.ty, .singleton, none⟩)], [(dsObj.ty, dsObj)]⟩
        "a" a = (some dsObj, a)) ∧
     DIContainer.countD
        ⟨[("a", ⟨"a", dsObj, dsObj.ty, .singleton, none⟩)], [(dsObj.ty, dsObj)]⟩ =
          DIContainer.countD emptyDC + 1) ∧
    ((∃ e, SimpleContainer.provideWithName ⟨[("a", dsObj)]⟩ "a" svcObj = .error e) ∧
     SimpleContainer.get ⟨[("a", dsObj)]⟩ "a" = some dsObj ∧
     SimpleContainer.count ⟨[("a", dsObj)]⟩ = SimpleContainer.count emptySC + 1) :=
  ⟨c4_duplicate_provide_rejected.1 emptyDC "a" dsObj svcObj _ rfl,
   c4_duplicate_provide_rejected.2 emptySC "a" dsObj svcObj _ (by decide) rfl⟩

/-- C5: after a successful `provide(n, v)` — default `Singleton`
lifecycle — every `get(n)` returns the stored value `v` with
found = true, independently of the allocation state, so successive
calls all return the exact same stored instance. Holds for
`DIContainer.Provide`/`Get` and for
`SimpleContainer.ProvideWithName`/`Get` with a non-empty name. -/
theorem c5_singleton_get_stable :
    (∀ (c : DIContainer) (n : String) (v : Obj) (c2 : DIContainer),
       DIContainer.provide c n v = .ok c2 →
       (∀ a, DIContainer.getA c2 n a = (some v, a)) ∧
       (∀ a b, (DIContainer.getA c2 n a).fst = (DIContainer.getA c2 n b).fst)) ∧
    (∀ (c : SimpleContainer) (n : String) (v : Obj) (c2 : SimpleContainer),
       n ≠ "" →
       SimpleContainer.provideWithName c n v = .ok c2 →
       SimpleContainer.get c2 n = some v) := by
  constructor
  · intro c n v c2 h
    rw [DIContainer.provide] at h
    cases hl : lookupName c.beans n with
    | some b => rw [hl] at h; cases h
    | none =>
      rw [hl] at h
      cases h
      have hfound := lookupName_append_of_not_found c.beans n
        (⟨n, v, v.ty, .singleton, none⟩ : Bean) hl
      have hget : ∀ a, DIContainer.getA
          ⟨c.beans ++ [(n, ⟨n, v, v.ty, .singleton, none⟩)],
           DIContainer.upsertService c.services v.ty v⟩ n a = (some v, a) := by
        intro a
        simp [DIContainer.getA, hfound]
      exact ⟨hget, fun a b => by rw [hget a, hget b]⟩
  · intro c n v c2 hn h
    have hnb : (n == "") = false := by simpa using hn
    rw [SimpleContainer.provideWithName] at h
    simp only [hnb, Bool.false_eq_true, if_false] at h
    cases hl : lookupName c.beans n with
    | some b => rw [hl] at h; cases h
    | none =>
      rw [hl] at h
      cases h
      simp [SimpleContainer.get, lookupName_append_of_not_found c.beans n v hl]

/-- C5 witness: after providing the datastore under "ds" in the empty
containers, lookups return it unchanged at any allocation state. -/
theorem c5_singleton_get_stable_witness :
    (∀ a, DIContainer.getA
       ⟨[("ds", ⟨"ds", dsObj, dsObj.ty, .singleton, none⟩)], [(dsObj.ty, dsObj)]⟩
       "ds" a = (some dsObj, a)) ∧
    SimpleContainer.get ⟨[("ds", dsObj)]⟩ "ds" = some dsObj :=
  ⟨(c5_singleton_get_stable.1 emptyDC "ds" dsObj _ rfl).1,
   c5_singleton_get_stable.2 emptySC "ds" dsObj _ (by decide) rfl⟩

/-- C6: for a bean registered with `Prototype` lifecycle and a
factory, every `get(name)` invokes the factory on the next fresh
reference and returns its result, so two successive calls return
distinct, non-reference-identical instances whenever the factory
allocates (returns an object at the fresh reference it is handed);
for a `Prototype` bean registered without a factory, `get` returns
the stored instance with found = true — the fallback, not an
error. -/
theorem c6_prototype_factory_semantics :
    (∀ (c : DIContainer) (n : String) (f : Nat → Obj) (a : Nat) (c2 : DIContainer)
       (a2 : Nat),
       DIContainer.registerFactory c n f .prototype a = (.ok c2, a2) →
       (∀ b, DIContainer.getA c2 n b = (some (f b), b + 1)) ∧
       ((∀ r, (f r).ref = r) →
         ∀ b, ∃ v1 v2, (DIContainer.getA c2 n b).fst = some v1 ∧
           (DIContainer.getA c2 n (b + 1)).fst = some v2 ∧ v1.ref ≠ v2.ref)) ∧
    (∀ (c : DIContainer) (n : String) (v : Obj) (c2 : DIContainer),
       DIContainer.registerWithLifecycle c n v .prototype = .ok c2 →
       ∀ a, DIContainer.getA c2 n a = (some v, a)) := by
  constructor
  · intro c n f a c2 a2 h
    rw [DIContainer.registerFactory] at h
    cases hl : lookupName c.beans n with
    | some b => rw [hl] at h; cases h
    | none =>
      rw [hl] at h
      cases h
      have hfound := lookupName_append_of_not_found c.beans n
        (⟨n, f a, (f a).ty, .prototype, some f⟩ : Bean) hl
      have hget : ∀ b, DIContainer.getA
          ⟨c.beans ++ [(n, ⟨n, f a, (f a).ty, .prototype, some f⟩)], c.services⟩ n b =
            (some (f b), b + 1) := by
        intro b
        simp [DIContainer.getA, hfound]
      refine ⟨hget, fun halloc b => ⟨f b, f (b + 1), ?_, ?_, ?_⟩⟩
      · rw [hget b]
      · rw [hget (b + 1)]
      · rw [halloc b, halloc (b + 1)]
        omega
  · intro c n v c2 h
    rw [DIContainer.registerWithLifecycle] at h
    cases hl : lookupName c.beans n with
    | some b => rw [hl] at h; cases h
    | none =>
      rw [hl] at h
      cases h
      intro a
      simp [DIContainer.getA,
        lookupName_append_of_not_found c.beans n (⟨n, v, v.ty, .prototype, none⟩ : Bean) hl]

/-- C6 witness: registering the allocating factory `protoFac` as
"proto" in the empty container, `get` at allocation state 5 returns
the factory's product at reference 5 and bumps the allocator; the two
instances returned by successive calls have distinct references.
Registering a `Prototype` bean without a factory falls back to the
stored instance. -/
theorem c6_prototype_factory_semantics_witness :
    DIContainer.getA protoC "proto" 5 = (some (protoFac 5), 6) ∧
    (∃ v1 v2, (DIContainer.getA protoC "proto" 5).fst = some v1 ∧
      (DIContainer.getA protoC "proto" 6).fst = some v2 ∧ v1.ref ≠ v2.ref) ∧
    (∀ a, DIContainer.getA ⟨[("np", ⟨"np", dsObj, dsObj.ty, .prototype, none⟩)], []⟩
       "np" a = (some dsObj, a)) :=
  ⟨(c6_prototype_factory_semantics.1 emptyDC "proto" protoFac 0 protoC 1 rfl).1 5,
   (c6_prototype_factory_semantics.1 emptyDC "proto" protoFac 0 protoC 1 rfl).2
     (fun _ => rfl) 5,
   c6_prototype_factory_semantics.2 emptyDC "np" dsObj _ rfl⟩

/-- For an interface target type the scan of
`DIContainer.GetBeansByType` never panics and returns exactly the
values of the matching beans — those whose type equals the target or
implements it — in scan order. -/
theorem getBeansByTypeList_interface_chr (t : Ty) (ht : t.isInterface = true) :
    ∀ l : List (String × Bean),
      DIContainer.getBeansByTypeList t l =
        .ok ((l.filter (fun p => p.snd.ty == t || p.snd.ty.impls.contains t.id)).map
          (fun p => p.snd.value)) := by
  intro l
  induction l with
  | nil => rfl
  | cons q rest ih =>
    rw [DIContainer.getBeansByTypeList, DIContainer.dicMatch]
    by_cases hq : (q.snd.ty == t) = true
    · rw [if_pos hq, ih]
      simp [List.filter_cons, hq]
    · have hq2 : (q.snd.ty == t) = false := by simpa using hq
      rw [if_neg hq, implementsEx, if_pos ht]
      cases hc : q.snd.ty.impls.contains t.id with
      | true =>
        rw [ih]
        have hcm : t.id ∈ q.snd.ty.impls := by simpa using hc
        simp [List.filter_cons, hq2, hcm]
      | false =>
        rw [ih]
        have hcm : t.id ∉ q.snd.ty.impls := by simpa using hc
        simp [List.filter_cons, hq2, hcm]

/-- C7: for every interface (capability) type, `GetBeansByType`
returns every registered bean whose type equals the interface or
structurally satisfies it — the result is exactly the values of the
matching beans of the registry, so in particular it contains the
value of each matching bean; and on a registry of two beans under
distinct names, both of whose types implement the interface, it is a
collection of length 2 containing both. -/
theorem c7_beans_by_interface_type :
    (∀ (c : DIContainer) (t : Ty), t.isInterface = true →
       ∃ l, DIContainer.getBeansByType c t = .ok l ∧
         l = (c.beans.filter
               (fun p => p.snd.ty == t || p.snd.ty.impls.contains t.id)).map
             (fun p => p.snd.value) ∧
         (∀ (n : String) (b : Bean), (n, b) ∈ c.beans →
            (b.ty = t ∨ b.ty.impls.contains t.id = true) → b.value ∈ l)) ∧
    (∀ (c : DIContainer) (n1 n2 : String) (b1 b2 : Bean) (t : Ty),
       c.beans = [(n1, b1), (n2, b2)] → n1 ≠ n2 → t.isInterface = true →
       b1.ty.impls.contains t.id = true → b2.ty.impls.contains t.id = true →
       ∃ l, DIContainer.getBeansByType c t = .ok l ∧ l.length = 2 ∧
         b1.value ∈ l ∧ b2.value ∈ l) := by
  have hmain : ∀ (c : DIContainer) (t : Ty), t.isInterface = true →
      ∃ l, DIContainer.getBeansByType c t = .ok l ∧
        l = (c.beans.filter
              (fun p => p.snd.ty == t || p.snd.ty.impls.contains t.id)).map
            (fun p => p.snd.value) ∧
        (∀ (n : String) (b : Bean), (n, b) ∈ c.beans →
           (b.ty = t ∨ b.ty.impls.contains t.id = true) → b.value ∈ l) := by
    intro c t ht
    refine ⟨_, getBeansByTypeList_interface_chr t ht c.beans, rfl, ?_⟩
    intro n b hmem hcase
    have hcond : (fun p : String × Bean =>
        p.snd.ty == t || p.snd.ty.impls.contains t.id) (n, b) = true := by
      rcases hcase with h | h
      · simp [h]
      · have hm2 : t.id ∈ b.ty.impls := by simpa using h
        simp [hm2]
    have hfil : (n, b) ∈ c.beans.filter
        (fun p => p.snd.ty == t || p.snd.ty.impls.contains t.id) :=
      List.mem_filter.2 ⟨hmem, hcond⟩
    exact List.mem_map_of_mem (fun p => p.snd.value) hfil
  refine ⟨hmain, ?_⟩
  intro c n1 n2 b1 b2 t hbeans hne hiface h1 h2
  rcases hmain c t hiface with ⟨l, hok, hchr, _⟩
  have m1 : t.id ∈ b1.ty.impls := by simpa using h1
  have m2 : t.id ∈ b2.ty.impls := by simpa using h2
  refine ⟨l, hok, ?_, ?_, ?_⟩
  · rw [hchr, hbeans]
    simp [List.filter_cons, m1, m2]
  · rw [hchr, hbeans]
    simp [List.filter_cons, m1, m2]
  · rw [hchr, hbeans]
    simp [List.filter_cons, m1, m2]

/-- C7 witness: on the mixed registry (a Postgres-like store, a
non-implementing service bean, a memory store) the query by the
datastore interface contains both implementing beans and is exactly
their two values; the two-bean scenario holds on the registry of just
the two stores. -/
theorem c7_beans_by_interface_type_witness :
    (∃ l, DIContainer.getBeansByType c7mix dsIfaceTy = .ok l ∧
       s1Bean.value ∈ l ∧ s2Bean.value ∈ l) ∧
    (∃ l, DIContainer.getBeansByType c7dc dsIfaceTy = .ok l ∧
       l.length = 2 ∧ s1Bean.value ∈ l ∧ s2Bean.value ∈ l) := by
  constructor
  · rcases c7_beans_by_interface_type.1 c7mix dsIfaceTy rfl with ⟨l, hok, hchr, hcomp⟩
    exact ⟨l, hok,
      hcomp "s1" s1Bean (by simp [c7mix]) (Or.inr (by decide)),
      hcomp "s2" s2Bean (by simp [c7mix]) (Or.inr (by decide))⟩
  · exact c7_beans_by_interface_type.2 c7dc "s1" "s2" s1Bean s2Bean dsIfaceTy rfl
      (by decide) rfl (by decide) (by decide)

/-- The scan of `DIContainer.GetBeansByType` panics as soon as it
reaches a bean whose type differs from a non-interface target type,
because the unguarded `Implements` call rejects non-interface
arguments. -/
theorem getBeansByTypeList_error_of_concrete (t : Ty) (ht : t.isInterface = false) :
    ∀ l : List (String × Bean), (∃ p ∈ l, p.snd.ty ≠ t) →
      ∃ e, DIContainer.getBeansByTypeList t l = .error e := by
  intro l
  induction l with
  | nil => rintro ⟨p, hp, _⟩; cases hp
  | cons q rest ih =>
    rintro ⟨p, hp, hpt⟩
    rw [DIContainer.getBeansByTypeList]
    by_cases hq : (q.snd.ty == t) = true
    · have hqt : q.snd.ty = t := by simpa using hq
      have hptail : p ∈ rest := by
        rcases List.mem_cons.1 hp with hph | hptl
        · exact absurd (by rw [hph, hqt]) hpt
        · exact hptl
      rcases ih ⟨p, hptail, hpt⟩ with ⟨e, he⟩
      rw [DIContainer.dicMatch, if_pos hq, he]
      exact ⟨e, rfl⟩
    · rw [DIContainer.dicMatch, if_neg hq]
      rw [implementsEx, if_neg (by simp [ht])]
      exact ⟨_, rfl⟩

/-- The scan of `SimpleContainer.GetByType` never panics: the
interface-kind guard short-circuits before `Implements` can be
applied to a non-interface target. -/
theorem getByTypeListEx_total (t : Ty) :
    ∀ l : List (String × Obj),
      SimpleContainer.getByTypeListEx t l = .ok (SimpleContainer.getByTypeList t l) := by
  intro l
  induction l with
  | nil => rfl
  | cons q rest ih =>
    rw [SimpleContainer.getByTypeListEx, SimpleContainer.getByTypeList]
    by_cases hq : (q.snd.ty == t) = true
    · rw [if_pos hq, if_pos hq]
    · rw [if_neg hq, if_neg hq]
      by_cases hi : t.isInterface = true
      · rw [if_pos hi, implementsEx, if_pos hi]
        cases hc : q.snd.ty.impls.contains t.id with
        | true =>
          rw [hi]
          rfl
        | false =>
          rw [hi, ih]
          rfl
      · have hi2 : t.isInterface = false := by simpa using hi
        rw [if_neg hi, ih, hi2]
        rfl

/-- C9: `DIContainer.GetBeansByType` is not total — for every
non-interface target type, a registry containing some bean of a
different type makes the scan panic, because the structural check
applies `Type.Implements` to the non-interface target without a kind
guard; `SimpleContainer.GetByType`, which guards on the interface
kind, never panics and agrees with its total version on every
input. -/
theorem c9_get_beans_by_type_panics :
    (∀ (c : DIContainer) (t : Ty),
       t.isInterface = false →
       (∃ p ∈ c.beans, p.snd.ty ≠ t) →
       ∃ e, DIContainer.getBeansByType c t = .error e) ∧
    (∀ (c : SimpleContainer) (t : Ty),
       SimpleContainer.getByTypeEx c t = .ok (SimpleContainer.getByType c t)) := by
  constructor
  · intro c t ht hex
    exact getBeansByTypeList_error_of_concrete t ht c.beans hex
  · intro c t
    exact getByTypeListEx_total t c.beans

/-- C9 witness: on the `DIContainer` bootstrap registry, querying by
the concrete store type panics at the service bean (its type differs
from the target); the simple container's query by the same concrete
type is total. -/
theorem c9_get_beans_by_type_panics_witness :
    (∃ e, DIContainer.getBeansByType dicBoot dsTy = .error e) ∧
    SimpleContainer.getByTypeEx scBoot dsTy = .ok (SimpleContainer.getByType scBoot dsTy) :=
  ⟨c9_get_beans_by_type_panics.1 dicBoot dsTy (by decide)
     ⟨("svc", svcBeanB), by simp [dicBoot], by decide⟩,
   c9_get_beans_by_type_panics.2 scBoot dsTy⟩

/-- One field of the `DIContainer` wiring pass fixes a field of an
unsettable bean. -/
theorem injectFieldD_of_not_ptr (c : DIContainer) (o : Obj) (ho : o.isPtr = false)
    (f : Field) (a : Nat) : DIContainer.injectFieldD c o f a = (f, a) := by
  rw [DIContainer.injectFieldD]
  by_cases ht : (tagGet f == "") = true
  · rw [if_pos ht]
  · rw [if_neg ht, if_pos (by simp [canSet, ho])]

/-- C10: a bean registered as a plain struct value (not a pointer) is
left entirely unchanged by the wiring pass of either container —
every field keeps its pre-populate value, because the reflective view
of a non-pointer value is not settable — and `Populate` still returns
no error, keeping the unchanged bean registered. -/
theorem c10_value_beans_untouched :
    (∀ (c : SimpleContainer) (o : Obj), o.isPtr = false →
       SimpleContainer.injectDependencies c o = o) ∧
    (∀ (c : SimpleContainer) (n : String) (o : Obj), o.isPtr = false →
       (n, o) ∈ c.beans →
       ∃ c2, SimpleContainer.populate c = .ok c2 ∧ (n, o) ∈ c2.beans) ∧
    (∀ (c : DIContainer) (o : Obj) (a : Nat), o.isPtr = false →
       DIContainer.injectDepsD c o a = (o, a)) := by
  have hsc : ∀ (c : SimpleContainer) (o : Obj), o.isPtr = false →
      SimpleContainer.injectDependencies c o = o := by
    intro c o ho
    rw [SimpleContainer.injectDependencies]
    by_cases hs : o.isStruct = true
    · rw [if_pos hs]
      have hfix : o.fields.map (SimpleContainer.injectField c o) = o.fields := by
        refine map_self_of_fix _ o.fields (fun f _ => ?_)
        rw [SimpleContainer.injectField]
        by_cases ht : (tagGet f == "") = true
        · rw [if_pos ht]
        · rw [if_neg ht, if_pos (by simp [canSet, ho])]
      rw [hfix]
    · rw [if_neg hs]
  refine ⟨hsc, ?_, ?_⟩
  · intro c n o ho hmem
    refine ⟨_, rfl, ?_⟩
    have : (n, SimpleContainer.injectDependencies c o) ∈
        c.beans.map (fun p => (p.fst, SimpleContainer.injectDependencies c p.snd)) :=
      List.mem_map_of_mem (fun p => (p.fst, SimpleContainer.injectDependencies c p.snd)) hmem
    rwa [hsc c o ho] at this
  · intro c o a ho
    rw [DIContainer.injectDepsD]
    by_cases hs : o.isStruct = true
    · rw [if_pos hs]
      have hfields : ∀ (fs : List Field) (b : Nat),
          DIContainer.injectFieldsD c o fs b = (fs, b) := by
        intro fs
        induction fs with
        | nil => intro b; rfl
        | cons f rest ih =>
          intro b
          rw [DIContainer.injectFieldsD, injectFieldD_of_not_ptr c o ho f b, ih b]
      simp only [hfields]
    · rw [if_neg hs]

/-- C10 witness: the service registered as a plain struct value keeps
its marked field at the zero value through both wiring passes even
though its dependency is registered and assignable. -/
theorem c10_value_beans_untouched_witness :
    SimpleContainer.injectDependencies c2sc svcVal = svcVal ∧
    (∃ c2, SimpleContainer.populate c2sc = .ok c2 ∧ ("svc", svcVal) ∈ c2.beans) ∧
    DIContainer.injectDepsD dicBoot svcVal 0 = (svcVal, 0) :=
  ⟨c10_value_beans_untouched.1 c2sc svcVal rfl,
   c10_value_beans_untouched.2.1 c2sc "svc" svcVal rfl (by simp [c2sc]),
   c10_value_beans_untouched.2.2 dicBoot svcVal 0 rfl⟩

end ServerTpl
